import Mathlib

/-!
Shallow embedding of the mygbpy Game Boy (SM83) emulator core:
the memory bus with mapper bank switching (src/memory.py) and the CPU
fetch/decode/execute loop with its register and flag model (src/cpu.py).

Conventions used throughout, stated once:
* Python integers are unbounded, so machine quantities are Nat (registers,
  buffer contents) and Int (addresses, which the source can drive negative
  or past 0xFFFF, and signed displacements).
* Python `value & 0xFF` and `value & 0xFFFF` on an arbitrary integer equal
  `value mod 256` and `value mod 65536`; the register setters are modelled
  with Int.emod, which agrees with the two's-complement semantics of
  Python `&` on negative operands.
* Python `x & ~mask` for naturals with submask bits equals `x - (x &&& mask)`
  because `x = (x &&& mask) + (x & ~mask)` splits x over disjoint bit sets.
* A Python exception aborts the current step but leaves all mutations made
  so far visible on the object; handlers therefore return the partial
  state together with the error.
-/

/-- Error kinds raised by the source: ValueError for invalid addresses and
prohibited writes, NotImplementedError for opcodes and mappers, IndexError
for out-of-range byte indexing of the ROM blob. Each constructor carries
exactly the data interpolated into the corresponding message in the source. -/
inductive Err where
  | invalidAddress (address : Int)
  | prohibitedWrite (address : Int)
  | unimplementedOpcode (opcode : Nat)
  | unsupportedMapper (code : Nat)
  | indexError
deriving DecidableEq, Repr

/-- Python index normalization for `bytes`: a negative index counts from
the end of the blob. -/
def pyIndex (b : List Nat) (i : Int) : Int :=
  if i < 0 then i + b.length else i

/-- Python `bytes` indexing `b[i]`: the normalized index must be in range,
otherwise IndexError is raised. -/
def bytesGet (b : List Nat) (i : Int) : Except Err Nat :=
  if 0 ≤ pyIndex b i ∧ pyIndex b i < b.length then
    .ok (b.getD (pyIndex b i).toNat 0)
  else
    .error .indexError

/-- The mapper variants of src/memory.py: class NoMBC holds only the ROM
blob, class MBC1 additionally holds the selected ROM bank (initially 0x01). -/
inductive Mapper where
  | noMBC (rom : List Nat)
  | mbc1 (rom : List Nat) (romBank : Nat)

/-- NoMBC.read / MBC1.read from src/memory.py. -/
def Mapper.read (mp : Mapper) (address : Int) : Except Err Nat :=
  match mp with
  | .noMBC rom => bytesGet rom address
  | .mbc1 rom romBank =>
    if address < 0x4000 then
      bytesGet rom address
    else
      bytesGet rom (address - 0x4000 + romBank * 0x4000)

/-- NoMBC.write (a silent no-op) / MBC1.write from src/memory.py.
MBC1: for 0x2000 <= address <= 0x3FFF the source sets a local to
`value & 0b11111` (written inline twice below, the same value) and the bank
becomes that, with Python `value or 0x01` turning a zero result into 0x01. -/
def Mapper.write (mp : Mapper) (address : Int) (value : Nat) : Mapper :=
  match mp with
  | .noMBC rom => .noMBC rom
  | .mbc1 rom romBank =>
    if 0x2000 ≤ address ∧ address ≤ 0x3FFF then
      .mbc1 rom (if value &&& 0b11111 = 0 then 0x01 else value &&& 0b11111)
    else
      .mbc1 rom romBank

/-- The selected ROM bank of a mapper (1 for NoMBC, which has none). -/
def Mapper.bank : Mapper → Nat
  | .noMBC _ => 1
  | .mbc1 _ romBank => romBank

/-- Folding a list of (address, value) writes into a mapper. -/
def Mapper.writeList (mp : Mapper) (ws : List (Int × Nat)) : Mapper :=
  ws.foldl (fun m p => m.write p.1 p.2) mp

/-- detect_mbc from src/memory.py: dispatch on the ROM byte at 0x0147. -/
def detectMBC (rom : List Nat) : Except Err Mapper :=
  match bytesGet rom 0x0147 with
  | .error e => .error e
  | .ok mbcType =>
    if mbcType = 0x00 then .ok (.noMBC rom)
    else if mbcType = 0x01 ∨ mbcType = 0x02 ∨ mbcType = 0x03 then .ok (.mbc1 rom 0x01)
    else .error (.unsupportedMapper mbcType)

/-- The Memory bus state of src/memory.py: a mapper plus the flat byte
buffers (modelled as total functions on the in-range indices, which the
dispatch below always keeps within each buffer size) and the IE byte.
`ioRegs` is the field named `io` in the source. -/
structure Memory where
  mapper : Mapper
  vram : Nat → Nat
  eram : Nat → Nat
  wram : Nat → Nat
  oam : Nat → Nat
  ioRegs : Nat → Nat
  hram : Nat → Nat
  ie : Nat

/-- Point update of a byte buffer. -/
def setByte (buf : Nat → Nat) (i v : Nat) : Nat → Nat :=
  fun j => if j = i then v else buf j

/-- Memory.read from src/memory.py. The echo-RAM branch in the source
recurses with `self.read(address - 0x2000)`; the target address is then in
0xC000..0xDDFF and always resolves to one of the two WRAM branches, which
are inlined here (the recursion depth is exactly one). -/
def Memory.read (m : Memory) (address : Int) : Except Err Nat :=
  if 0x0000 ≤ address ∧ address ≤ 0x7FFF then
    m.mapper.read address
  else if 0x8000 ≤ address ∧ address ≤ 0x9FFF then
    .ok (m.vram (address - 0x8000).toNat)
  else if 0xA000 ≤ address ∧ address ≤ 0xBFFF then
    .ok (m.eram (address - 0xA000).toNat)
  else if 0xC000 ≤ address ∧ address ≤ 0xCFFF then
    .ok (m.wram (address - 0xC000).toNat)
  else if 0xD000 ≤ address ∧ address ≤ 0xDFFF then
    .ok (m.wram (0x1000 + (address - 0xD000)).toNat)
  else if 0xE000 ≤ address ∧ address ≤ 0xFDFF then
    if address - 0x2000 ≤ 0xCFFF then
      .ok (m.wram (address - 0x2000 - 0xC000).toNat)
    else
      .ok (m.wram (0x1000 + (address - 0x2000 - 0xD000)).toNat)
  else if 0xFE00 ≤ address ∧ address ≤ 0xFE9F then
    .ok (m.oam (address - 0xFE00).toNat)
  else if 0xFEA0 ≤ address ∧ address ≤ 0xFEFF then
    .ok 0x00
  else if 0xFF00 ≤ address ∧ address ≤ 0xFF7F then
    .ok (m.ioRegs (address - 0xFF00).toNat)
  else if 0xFF80 ≤ address ∧ address ≤ 0xFFFE then
    .ok (m.hram (address - 0xFF80).toNat)
  else if address = 0xFFFF then
    .ok m.ie
  else
    .error (.invalidAddress address)

/-- Memory.write from src/memory.py. The source first masks the value to
8 bits (`value = value & 0xFF`, i.e. mod 256) and then stores that masked
local in the chosen branch; the mask is written inline at each use here,
which is the same value. The echo-RAM branch recurses with
`self.write(address - 0x2000, value)` into the WRAM branches, inlined as in
read. Note the dispatch has no branch for address 0xFFFF: it falls through
to the final invalid-address error. -/
def Memory.write (m : Memory) (address : Int) (value0 : Nat) : Except Err Memory :=
  if 0x0000 ≤ address ∧ address ≤ 0x7FFF then
    .ok { m with mapper := m.mapper.write address (value0 % 256) }
  else if 0x8000 ≤ address ∧ address ≤ 0x9FFF then
    .ok { m with vram := setByte m.vram (address - 0x8000).toNat (value0 % 256) }
  else if 0xA000 ≤ address ∧ address ≤ 0xBFFF then
    .ok { m with eram := setByte m.eram (address - 0xA000).toNat (value0 % 256) }
  else if 0xC000 ≤ address ∧ address ≤ 0xCFFF then
    .ok { m with wram := setByte m.wram (address - 0xC000).toNat (value0 % 256) }
  else if 0xD000 ≤ address ∧ address ≤ 0xDFFF then
    .ok { m with wram := setByte m.wram (0x1000 + (address - 0xD000)).toNat (value0 % 256) }
  else if 0xE000 ≤ address ∧ address ≤ 0xFDFF then
    if address - 0x2000 ≤ 0xCFFF then
      .ok { m with wram := setByte m.wram (address - 0x2000 - 0xC000).toNat (value0 % 256) }
    else
      .ok { m with wram := setByte m.wram (0x1000 + (address - 0x2000 - 0xD000)).toNat (value0 % 256) }
  else if 0xFE00 ≤ address ∧ address ≤ 0xFE9F then
    .ok { m with oam := setByte m.oam (address - 0xFE00).toNat (value0 % 256) }
  else if 0xFEA0 ≤ address ∧ address ≤ 0xFEFF then
    .error (.prohibitedWrite address)
  else if 0xFF00 ≤ address ∧ address ≤ 0xFF7F then
    .ok { m with ioRegs := setByte m.ioRegs (address - 0xFF00).toNat (value0 % 256) }
  else if 0xFF80 ≤ address ∧ address ≤ 0xFFFE then
    .ok { m with hram := setByte m.hram (address - 0xFF80).toNat (value0 % 256) }
  else
    .error (.invalidAddress address)

/-- Memory.__init__ from src/memory.py: detect the mapper from the ROM and
zero-initialize all buffers and the IE register. -/
def Memory.new (rom : List Nat) : Except Err Memory :=
  match detectMBC rom with
  | .error e => .error e
  | .ok mp =>
    .ok { mapper := mp, vram := fun _ => 0, eram := fun _ => 0, wram := fun _ => 0,
          oam := fun _ => 0, ioRegs := fun _ => 0, hram := fun _ => 0, ie := 0x00 }

/-- The CPU register file and state of src/cpu.py: eight 8-bit registers,
SP and PC, the HALT flag, and the memory bus the CPU owns a reference to. -/
structure CPUState where
  pc : Nat
  sp : Nat
  a : Nat
  f : Nat
  b : Nat
  c : Nat
  d : Nat
  e : Nat
  h : Nat
  l : Nat
  halted : Bool
  mem : Memory

/-- pc.setter: `value & 0xFFFF` (16-bit wrap, mod 65536 for any integer). -/
def CPUState.setPC (s : CPUState) (v : Int) : CPUState := { s with pc := (v % 65536).toNat }

/-- sp.setter: `value & 0xFFFF`. -/
def CPUState.setSP (s : CPUState) (v : Int) : CPUState := { s with sp := (v % 65536).toNat }

/-- a.setter: `value & 0xFF`. -/
def CPUState.setA (s : CPUState) (v : Int) : CPUState := { s with a := (v % 256).toNat }

/-- f.setter: `value & 0xF0` (only the upper nibble is kept). -/
def CPUState.setF (s : CPUState) (v : Int) : CPUState := { s with f := (v % 256).toNat &&& 0xF0 }

/-- b.setter: `value & 0xFF`. -/
def CPUState.setB (s : CPUState) (v : Int) : CPUState := { s with b := (v % 256).toNat }

/-- c.setter: `value & 0xFF`. -/
def CPUState.setC (s : CPUState) (v : Int) : CPUState := { s with c := (v % 256).toNat }

/-- d.setter: `value & 0xFF`. -/
def CPUState.setD (s : CPUState) (v : Int) : CPUState := { s with d := (v % 256).toNat }

/-- e.setter: `value & 0xFF`. -/
def CPUState.setE (s : CPUState) (v : Int) : CPUState := { s with e := (v % 256).toNat }

/-- h.setter: `value & 0xFF`. -/
def CPUState.setH (s : CPUState) (v : Int) : CPUState := { s with h := (v % 256).toNat }

/-- l.setter: `value & 0xFF`. -/
def CPUState.setL (s : CPUState) (v : Int) : CPUState := { s with l := (v % 256).toNat }

/-- af getter: `(self.a << 8) | self.f`. -/
def CPUState.af (s : CPUState) : Nat := (s.a <<< 8) ||| s.f

/-- bc getter: `(self.b << 8) | self.c`. -/
def CPUState.bc (s : CPUState) : Nat := (s.b <<< 8) ||| s.c

/-- de getter: `(self.d << 8) | self.e`. -/
def CPUState.de (s : CPUState) : Nat := (s.d <<< 8) ||| s.e

/-- hl getter: `(self.h << 8) | self.l`. -/
def CPUState.hl (s : CPUState) : Nat := (s.h <<< 8) ||| s.l

/-- af.setter: mask to 16 bits, a := value >> 8, f := value & 0xF0. -/
def CPUState.setAF (s : CPUState) (v : Int) : CPUState :=
  let w := (v % 65536).toNat
  (s.setA ((w >>> 8 : Nat) : Int)).setF ((w &&& 0xF0 : Nat) : Int)

/-- bc.setter: mask to 16 bits, b := value >> 8, c := value & 0xFF. -/
def CPUState.setBC (s : CPUState) (v : Int) : CPUState :=
  let w := (v % 65536).toNat
  (s.setB ((w >>> 8 : Nat) : Int)).setC ((w &&& 0xFF : Nat) : Int)

/-- de.setter: mask to 16 bits, d := value >> 8, e := value & 0xFF. -/
def CPUState.setDE (s : CPUState) (v : Int) : CPUState :=
  let w := (v % 65536).toNat
  (s.setD ((w >>> 8 : Nat) : Int)).setE ((w &&& 0xFF : Nat) : Int)

/-- hl.setter: mask to 16 bits, h := value >> 8, l := value & 0xFF. -/
def CPUState.setHL (s : CPUState) (v : Int) : CPUState :=
  let w := (v % 65536).toNat
  (s.setH ((w >>> 8 : Nat) : Int)).setL ((w &&& 0xFF : Nat) : Int)

/-- CPU._set_flags: each of Z N H C (bits 7..4 of F) is either explicitly
set (Some) or left unchanged (None, the Python default). The source writes
`self._f = (self._f & ~mask) | (flags & mask)` directly to the backing
field; `x & ~mask` is modelled as `x - (x &&& mask)`. -/
def CPUState.setFlags (s : CPUState) (zero subtract half carry : Option Bool) : CPUState :=
  let flags :=
    (match zero with | some z => (if z then 1 else 0) <<< 7 | none => 0) |||
    (match subtract with | some n => (if n then 1 else 0) <<< 6 | none => 0) |||
    (match half with | some hc => (if hc then 1 else 0) <<< 5 | none => 0) |||
    (match carry with | some cy => (if cy then 1 else 0) <<< 4 | none => 0)
  let mask :=
    (match zero with | some _ => 0x80 | none => 0) |||
    (match subtract with | some _ => 0x40 | none => 0) |||
    (match half with | some _ => 0x20 | none => 0) |||
    (match carry with | some _ => 0x10 | none => 0)
  { s with f := (s.f - (s.f &&& mask)) ||| (flags &&& mask) }

/-- CPU._check_half_carry_sub: `(a & 0x0F) < (b & 0x0F)`. -/
def checkHalfCarrySub (a b : Nat) : Bool := (a &&& 0x0F) < (b &&& 0x0F)

/-- CPU._check_half_carry_add: `((a & 0x0F) + (b & 0x0F)) > 0x0F`. -/
def checkHalfCarryAdd (a b : Nat) : Bool := 0x0F < (a &&& 0x0F) + (b &&& 0x0F)

/-- Outcome of an instruction handler: normal completion, or a raised
exception together with the state mutated so far. -/
inductive HOut where
  | ok (s : CPUState)
  | err (e : Err) (s : CPUState)

/-- Helper for `self.memory[addr]` inside a handler: read a byte, or
propagate the exception with the state unchanged. -/
def readB (s : CPUState) (addr : Int) (k : Nat → HOut) : HOut :=
  match s.mem.read addr with
  | .ok v => k v
  | .error e => .err e s

/-- Helper for `self.memory[addr] = v` inside a handler: write a byte, or
propagate the exception with the state unchanged. -/
def writeB (s : CPUState) (addr : Int) (v : Nat) (k : CPUState → HOut) : HOut :=
  match s.mem.write addr v with
  | .ok m => k { s with mem := m }
  | .error e => .err e s

/-- 0x00 NOP. -/
def instr_NOP (s : CPUState) : HOut := .ok s

/-- 0x01 LD BC,d16: c := mem[pc]; b := mem[pc+1]; pc += 2. -/
def instr_LD_BC_d16 (s : CPUState) : HOut :=
  readB s s.pc fun v1 =>
    let s := s.setC v1
    readB s ((s.pc : Int) + 1) fun v2 =>
      let s := s.setB v2
      .ok (s.setPC ((s.pc : Int) + 2))

/-- 0x02 LD (BC),A: mem[bc] := a. -/
def instr_LD_BC_A (s : CPUState) : HOut :=
  writeB s s.bc s.a fun s => .ok s

/-- 0x03 INC BC: bc := bc + 1. -/
def instr_INC_BC (s : CPUState) : HOut := .ok (s.setBC ((s.bc : Int) + 1))

/-- 0x04 INC B. Note: the source passes only `zero` and `half_carry` to
_set_flags here, so N is left unchanged (unlike INC C / INC D / INC E). -/
def instr_INC_B (s : CPUState) : HOut :=
  let oldValue := s.b
  let s := s.setB ((s.b : Int) + 1)
  .ok (s.setFlags (some (s.b == 0)) none (some (checkHalfCarryAdd oldValue 1)) none)

/-- 0x05 DEC B: sets Z, H and N=1. -/
def instr_DEC_B (s : CPUState) : HOut :=
  let oldValue := s.b
  let s := s.setB ((s.b : Int) - 1)
  .ok (s.setFlags (some (s.b == 0)) (some true) (some (checkHalfCarrySub oldValue 1)) none)

/-- 0x06 LD B,d8: b := mem[pc]; pc += 1. -/
def instr_LD_B_d8 (s : CPUState) : HOut :=
  readB s s.pc fun v =>
    let s := s.setB v
    .ok (s.setPC ((s.pc : Int) + 1))

/-- 0x07 RLCA: a := ((a << 1) | (a >> 7)) & 0xFF; Z=0 N=0 H=0 C=(old & 0x80) != 0. -/
def instr_RLCA (s : CPUState) : HOut :=
  let oldValue := s.a
  let s := s.setA (((((s.a <<< 1) ||| (s.a >>> 7)) &&& 0xFF : Nat) : Int))
  .ok (s.setFlags (some false) (some false) (some false) (some (oldValue &&& 0x80 != 0)))

/-- 0x08 LD (a16),SP: the source sets a local
pointer := mem[pc] | mem[pc+1] << 8 (written inline at both uses below,
the same value), then mem[pointer] := sp & 0xFF,
mem[pointer+1] := (sp >> 8) & 0xFF, pc += 2. -/
def instr_LD_a16_SP (s : CPUState) : HOut :=
  readB s s.pc fun v1 =>
    readB s ((s.pc : Int) + 1) fun v2 =>
      writeB s (v1 ||| (v2 <<< 8)) (s.sp &&& 0x00FF) fun s =>
        writeB s (((v1 ||| (v2 <<< 8) : Nat) : Int) + 1) ((s.sp >>> 8) &&& 0x00FF) fun s =>
          .ok (s.setPC ((s.pc : Int) + 2))

/-- 0x09 ADD HL,BC: hl := hl + bc (wrapped); N=0, H=half-carry-16, C=(result > 0xFFFF). -/
def instr_ADD_HL_BC (s : CPUState) : HOut :=
  let oldHL := s.hl
  let result := oldHL + s.bc
  let s := s.setHL result
  .ok (s.setFlags none (some false)
    (some (decide (0x0FFF < (oldHL &&& 0x0FFF) + (s.bc &&& 0x0FFF)))) (some (decide (0xFFFF < result))))

/-- 0x0A LD A,(BC): a := mem[bc]. -/
def instr_LD_A_BC (s : CPUState) : HOut :=
  readB s s.bc fun v => .ok (s.setA v)

/-- 0x0B DEC BC: bc := bc - 1. -/
def instr_DEC_BC (s : CPUState) : HOut := .ok (s.setBC ((s.bc : Int) - 1))

/-- 0x0C INC C: sets Z, N=0, H. -/
def instr_INC_C (s : CPUState) : HOut :=
  let oldValue := s.c
  let s := s.setC ((s.c : Int) + 1)
  .ok (s.setFlags (some (s.c == 0)) (some false) (some (checkHalfCarryAdd oldValue 1)) none)

/-- 0x0D DEC C: sets Z, N=1, H. -/
def instr_DEC_C (s : CPUState) : HOut :=
  let oldValue := s.c
  let s := s.setC ((s.c : Int) - 1)
  .ok (s.setFlags (some (s.c == 0)) (some true) (some (checkHalfCarrySub oldValue 1)) none)

/-- 0x0E LD C,d8: c := mem[pc]; pc += 1. -/
def instr_LD_C_d8 (s : CPUState) : HOut :=
  readB s s.pc fun v =>
    let s := s.setC v
    .ok (s.setPC ((s.pc : Int) + 1))

/-- 0x0F RRCA: a := ((a >> 1) | (a << 7)) & 0xFF; Z=0 N=0 H=0 C=(old & 0x01) != 0. -/
def instr_RRCA (s : CPUState) : HOut :=
  let oldValue := s.a
  let s := s.setA (((((s.a >>> 1) ||| (s.a <<< 7)) &&& 0xFF : Nat) : Int))
  .ok (s.setFlags (some false) (some false) (some false) (some (oldValue &&& 0x01 != 0)))

/-- 0x10 STOP, implemented as an extended NOP: pc += 1. -/
def instr_STOP (s : CPUState) : HOut := .ok (s.setPC ((s.pc : Int) + 1))

/-- 0x11 LD DE,d16: de := mem[pc] | mem[pc+1] << 8; pc += 2 (both bytes are
read before the pair is written, unlike LD BC,d16). -/
def instr_LD_DE_d16 (s : CPUState) : HOut :=
  readB s s.pc fun v1 =>
    readB s ((s.pc : Int) + 1) fun v2 =>
      let s := s.setDE (v1 ||| (v2 <<< 8))
      .ok (s.setPC ((s.pc : Int) + 2))

/-- 0x12 LD (DE),A: mem[de] := a. -/
def instr_LD_DE_A (s : CPUState) : HOut :=
  writeB s s.de s.a fun s => .ok s

/-- 0x13 INC DE: de := de + 1. -/
def instr_INC_DE (s : CPUState) : HOut := .ok (s.setDE ((s.de : Int) + 1))

/-- 0x14 INC D: sets Z, N=0, H. -/
def instr_INC_D (s : CPUState) : HOut :=
  let oldValue := s.d
  let s := s.setD ((s.d : Int) + 1)
  .ok (s.setFlags (some (s.d == 0)) (some false) (some (checkHalfCarryAdd oldValue 1)) none)

/-- 0x15 DEC D: sets Z, N=1, H. -/
def instr_DEC_D (s : CPUState) : HOut :=
  let oldValue := s.d
  let s := s.setD ((s.d : Int) - 1)
  .ok (s.setFlags (some (s.d == 0)) (some true) (some (checkHalfCarrySub oldValue 1)) none)

/-- 0x16 LD D,d8: d := mem[pc]. Note: the source does NOT advance pc here,
unlike every other LD r,d8 handler. -/
def instr_LD_D_d8 (s : CPUState) : HOut :=
  readB s s.pc fun v => .ok (s.setD v)

/-- 0x17 RLA: a := ((a << 1) | carry-in) & 0xFF with carry-in = (f & 0x10) >> 4;
Z=0 N=0 H=0 C=(old & 0x80) > 0. -/
def instr_RLA (s : CPUState) : HOut :=
  let oldValue := s.a
  let s := s.setA (((((s.a <<< 1) ||| ((s.f &&& 0x10) >>> 4)) &&& 0xFF : Nat) : Int))
  .ok (s.setFlags (some false) (some false) (some false) (some (decide (0 < oldValue &&& 0x80))))

/-- 0x18 JR s8: read the displacement byte, pc += 1, convert the byte from
two's complement (values >= 0x80 become value - 0x100), then pc += s8. -/
def instr_JR_s8 (s : CPUState) : HOut :=
  readB s s.pc fun v =>
    let s := s.setPC ((s.pc : Int) + 1)
    let s8 : Int := if 0x80 ≤ v then (v : Int) - 0x100 else (v : Int)
    .ok (s.setPC ((s.pc : Int) + s8))

/-- 0x19 ADD HL,DE: hl := hl + de (wrapped); N=0, H=half-carry-16, C=carry. -/
def instr_ADD_HL_DE (s : CPUState) : HOut :=
  let oldValue := s.hl
  let newValue := s.hl + s.de
  let s := s.setHL newValue
  .ok (s.setFlags none (some false)
    (some (decide (0x0FFF < (oldValue &&& 0x0FFF) + (s.de &&& 0x0FFF)))) (some (decide (0xFFFF < newValue))))

/-- 0x1A LD A,(DE): a := mem[de]. -/
def instr_LD_A_DE (s : CPUState) : HOut :=
  readB s s.de fun v => .ok (s.setA v)

/-- 0x1B DEC DE: de := de - 1. -/
def instr_DEC_DE (s : CPUState) : HOut := .ok (s.setDE ((s.de : Int) - 1))

/-- 0x1C INC E: sets Z, N=0, H. -/
def instr_INC_E (s : CPUState) : HOut :=
  let oldValue := s.e
  let s := s.setE ((s.e : Int) + 1)
  .ok (s.setFlags (some (s.e == 0)) (some false) (some (checkHalfCarryAdd oldValue 1)) none)

/-- 0x1D DEC E: sets Z, N=1, H. -/
def instr_DEC_E (s : CPUState) : HOut :=
  let oldValue := s.e
  let s := s.setE ((s.e : Int) - 1)
  .ok (s.setFlags (some (s.e == 0)) (some true) (some (checkHalfCarrySub oldValue 1)) none)

/-- 0x1E LD E,d8: e := mem[pc]; pc += 1. -/
def instr_LD_E_d8 (s : CPUState) : HOut :=
  readB s s.pc fun v =>
    let s := s.setE v
    .ok (s.setPC ((s.pc : Int) + 1))

/-- 0x21 LD HL,d16: hl := mem[pc] | mem[pc+1] << 8; pc += 2. -/
def instr_LD_HL_d16 (s : CPUState) : HOut :=
  readB s s.pc fun v1 =>
    readB s ((s.pc : Int) + 1) fun v2 =>
      let s := s.setHL (v1 ||| (v2 <<< 8))
      .ok (s.setPC ((s.pc : Int) + 2))

/-- 0x47 LD B,A: b := a. -/
def instr_LD_B_A (s : CPUState) : HOut := .ok (s.setB s.a)

/-- 0x76 HALT: halted := true. -/
def instr_HALT (s : CPUState) : HOut := .ok { s with halted := true }

/-- 0x78 LD A,B: a := b. -/
def instr_LD_A_B (s : CPUState) : HOut := .ok (s.setA s.b)

/-- 0x3E LD A,d8: a := mem[pc]; pc += 1. -/
def instr_LD_A_d8 (s : CPUState) : HOut :=
  readB s s.pc fun v =>
    let s := s.setA v
    .ok (s.setPC ((s.pc : Int) + 1))

/-- 0xC3 JP d16: pc := mem[pc] | mem[pc+1] << 8. -/
def instr_JP_d16 (s : CPUState) : HOut :=
  readB s s.pc fun v1 =>
    readB s ((s.pc : Int) + 1) fun v2 =>
      .ok (s.setPC ((v1 ||| (v2 <<< 8) : Nat) : Int))

/-- CPU.instr_unimplemented: re-reads the opcode byte at pc - 1 and raises
NotImplementedError whose message interpolates only the opcode byte. -/
def instr_unimplemented (s : CPUState) : HOut :=
  match s.mem.read ((s.pc : Int) - 1) with
  | .ok opcode => .err (.unimplementedOpcode opcode) s
  | .error e => .err e s

/-- The Instruction metadata record of src/cpu.py (description strings are
kept as empty placeholders; they never influence behavior). -/
structure Instruction where
  name : String
  opcode : Nat
  length : Nat
  cycles : Nat
  handler : CPUState → HOut

/-- CPU.build_instruction_table from src/cpu.py, keyed by the fetched
opcode byte. The 0x1E entry declares its opcode field as 0x01E exactly as
the source does (numerically identical to 0x1E). -/
def instructionsTable (opcode : Nat) : Option Instruction :=
  match opcode with
  | 0x00 => some ⟨"NOP", 0x00, 1, 1, instr_NOP⟩
  | 0x01 => some ⟨"LD BC, d16", 0x01, 3, 3, instr_LD_BC_d16⟩
  | 0x02 => some ⟨"LD (BC), A", 0x02, 1, 2, instr_LD_BC_A⟩
  | 0x03 => some ⟨"INC BC", 0x03, 1, 2, instr_INC_BC⟩
  | 0x04 => some ⟨"INC B", 0x04, 1, 1, instr_INC_B⟩
  | 0x05 => some ⟨"DEC B", 0x05, 1, 1, instr_DEC_B⟩
  | 0x06 => some ⟨"LD B, d8", 0x06, 2, 2, instr_LD_B_d8⟩
  | 0x07 => some ⟨"RLCA", 0x07, 1, 1, instr_RLCA⟩
  | 0x08 => some ⟨"LD (a16), SP", 0x08, 3, 5, instr_LD_a16_SP⟩
  | 0x09 => some ⟨"ADD HL, BC", 0x09, 1, 2, instr_ADD_HL_BC⟩
  | 0x0A => some ⟨"LD A, (BC)", 0x0A, 1, 2, instr_LD_A_BC⟩
  | 0x0B => some ⟨"DEC BC", 0x0B, 1, 2, instr_DEC_BC⟩
  | 0x0C => some ⟨"INC C", 0x0C, 1, 1, instr_INC_C⟩
  | 0x0D => some ⟨"DEC C", 0x0D, 1, 1, instr_DEC_C⟩
  | 0x0E => some ⟨"LD C, d8", 0x0E, 2, 2, instr_LD_C_d8⟩
  | 0x0F => some ⟨"RRCA", 0x0F, 1, 1, instr_RRCA⟩
  | 0x10 => some ⟨"STOP", 0x10, 2, 1, instr_STOP⟩
  | 0x11 => some ⟨"LD DE, d16", 0x11, 3, 3, instr_LD_DE_d16⟩
  | 0x12 => some ⟨"LD (DE), A", 0x12, 1, 2, instr_LD_DE_A⟩
  | 0x13 => some ⟨"INC DE", 0x13, 1, 2, instr_INC_DE⟩
  | 0x14 => some ⟨"INC D", 0x14, 1, 1, instr_INC_D⟩
  | 0x15 => some ⟨"DEC D", 0x15, 1, 1, instr_DEC_D⟩
  | 0x16 => some ⟨"LD D, d8", 0x16, 2, 2, instr_LD_D_d8⟩
  | 0x17 => some ⟨"RLA", 0x17, 1, 1, instr_RLA⟩
  | 0x18 => some ⟨"JR s8", 0x18, 2, 3, instr_JR_s8⟩
  | 0x19 => some ⟨"ADD HL, DE", 0x19, 1, 2, instr_ADD_HL_DE⟩
  | 0x1A => some ⟨"LD A, (DE)", 0x1A, 1, 2, instr_LD_A_DE⟩
  | 0x1B => some ⟨"DEC DE", 0x1B, 1, 2, instr_DEC_DE⟩
  | 0x1C => some ⟨"INC E", 0x1C, 1, 1, instr_INC_E⟩
  | 0x1D => some ⟨"DEC E", 0x1D, 1, 1, instr_DEC_E⟩
  | 0x1E => some ⟨"LD E, d8", 0x01E, 2, 2, instr_LD_E_d8⟩
  | 0x21 => some ⟨"LD HL, d16", 0x21, 3, 3, instr_LD_HL_d16⟩
  | 0x3E => some ⟨"LD A, d8", 0x3E, 2, 2, instr_LD_A_d8⟩
  | 0x47 => some ⟨"LD B, A", 0x47, 1, 1, instr_LD_B_A⟩
  | 0x76 => some ⟨"HALT", 0x76, 1, 1, instr_HALT⟩
  | 0x78 => some ⟨"LD A, B", 0x78, 1, 1, instr_LD_A_B⟩
  | 0xC3 => some ⟨"JP d16", 0xC3, 3, 4, instr_JP_d16⟩
  | _ => none

/-- The fallback Instruction built by `instructions.get(opcode, ...)` in
CPU.step: name "not implemented", opcode 0, length 0, cycles 0, handler
instr_unimplemented. -/
def defaultInstruction : Instruction :=
  ⟨"not implemented", 0, 0, 0, instr_unimplemented⟩

/-- Result of one CPU.step call: normal completion with the cycle count the
source returns, or a propagated exception with the partially mutated state. -/
inductive StepResult where
  | ok (s : CPUState) (cycles : Nat)
  | err (e : Err) (s : CPUState)

/-- The state component of a step result (the CPU object as the driver
observes it afterwards, also when an exception was raised). -/
def StepResult.stateOf : StepResult → CPUState
  | .ok s _ => s
  | .err _ s => s

/-- The error component of a step result, if any. -/
def StepResult.errOf : StepResult → Option Err
  | .ok _ _ => none
  | .err e _ => some e

/-- The cycle count of a step result, if it completed normally. -/
def StepResult.cyclesOf : StepResult → Option Nat
  | .ok _ n => some n
  | .err _ _ => none

/-- CPU.step from src/cpu.py: if halted return 0 cycles without touching
anything; otherwise fetch the opcode byte at pc, advance pc by one with
16-bit wrap (`self.pc += 1; self.pc &= 0xFFFF`, the second statement being
absorbed by the wrapping setter), look the opcode up with the unimplemented
fallback, grab the cycle count and run the handler (the source reads the
cycle count into a local before running the handler; the lookup is a pure
function, so the duplicated lookup below is the same value). -/
def CPU.step (s : CPUState) : StepResult :=
  if s.halted then .ok s 0
  else
    match s.mem.read (s.pc : Int) with
    | .error e => .err e s
    | .ok opcode =>
      match ((instructionsTable opcode).getD defaultInstruction).handler
          (s.setPC ((s.pc : Int) + 1)) with
      | .ok s2 => .ok s2 ((instructionsTable opcode).getD defaultInstruction).cycles
      | .err e s2 => .err e s2

/-- CPU.__init__ from src/cpu.py: the power-on register file
(PC = 0x0100, SP = 0xFFFE, A = 0x01, F = 0x00, other registers 0, not
halted) over a given memory bus. -/
def CPU.new (m : Memory) : CPUState :=
  { pc := 0x0100, sp := 0xFFFE, a := 0x01, f := 0x00,
    b := 0x00, c := 0x00, d := 0x00, e := 0x00, h := 0x00, l := 0x00,
    halted := false, mem := m }

/-- A zero-filled test ROM of 0x148 bytes (enough to cover the mapper-type
byte at 0x0147) with the given program bytes placed at 0x0100, mirroring
setup_cpu_with_instructions in src/test.py. -/
def testRom (prog : List Nat) : List Nat :=
  List.replicate 0x100 0 ++ prog ++ List.replicate (0x48 - prog.length) 0

/-- A Memory over a zero-filled NoMBC test ROM carrying the given program
at 0x0100 (the mapper byte of testRom is 0x00, hence NoMBC). -/
def memWith (prog : List Nat) : Memory :=
  { mapper := .noMBC (testRom prog), vram := fun _ => 0, eram := fun _ => 0,
    wram := fun _ => 0, oam := fun _ => 0, ioRegs := fun _ => 0,
    hram := fun _ => 0, ie := 0x00 }

/-- A freshly constructed CPU over `memWith prog`. -/
def cpuWith (prog : List Nat) : CPUState := CPU.new (memWith prog)

set_option maxRecDepth 40000

theorem and15_eq_mod (x : Nat) : x &&& 15 = x % 16 := by
  simpa using Nat.and_pow_two_sub_one_eq_mod x 4

theorem lor_low (x y : Nat) (hx : x &&& 15 = 0) (hy : y &&& 15 = 0) :
    (x ||| y) &&& 15 = 0 := by
  apply Nat.eq_of_testBit_eq
  intro i
  have hx2 := congrArg (fun n => n.testBit i) hx
  have hy2 := congrArg (fun n => n.testBit i) hy
  simp only [Nat.testBit_land, Nat.testBit_lor, Nat.zero_testBit] at hx2 hy2 ⊢
  cases hb : Nat.testBit 15 i <;> (simp [hb] at hx2 hy2 ⊢; try simp [hx2, hy2])

theorem sub_low (x y : Nat) (hle : y ≤ x) (hx : x &&& 15 = 0) (hy : y &&& 15 = 0) :
    (x - y) &&& 15 = 0 := by
  rw [and15_eq_mod] at hx hy ⊢
  omega

theorem and_low_of_right (x m : Nat) (hm : m &&& 15 = 0) : (x &&& m) &&& 15 = 0 := by
  rw [Nat.and_assoc, hm]
  exact Nat.and_zero x

theorem setFlags_low (s : CPUState) (z n hc cy : Option Bool) (hf : s.f &&& 15 = 0) :
    (s.setFlags z n hc cy).f &&& 15 = 0 := by
  unfold CPUState.setFlags
  simp only
  have hM : ∀ o : Option Bool, ∀ k : Nat, k &&& 15 = 0 →
      ((match o with | some _ => k | none => 0 : Nat) &&& 15 = 0) := by
    intro o k hk
    cases o
    all_goals simp only []
    · decide
    · exact hk
  apply lor_low
  · apply sub_low _ _ Nat.and_le_left hf
    apply and_low_of_right
    apply lor_low
    apply lor_low
    apply lor_low
    · exact hM z 0x80 (by decide)
    · exact hM n 0x40 (by decide)
    · exact hM hc 0x20 (by decide)
    · exact hM cy 0x10 (by decide)
  · apply and_low_of_right
    apply lor_low
    apply lor_low
    apply lor_low
    · exact hM z 0x80 (by decide)
    · exact hM n 0x40 (by decide)
    · exact hM hc 0x20 (by decide)
    · exact hM cy 0x10 (by decide)

theorem readB_ok (s : CPUState) (addr : Int) (k : Nat → HOut) (s2 : CPUState)
    (hok : readB s addr k = .ok s2) : ∃ v, s.mem.read addr = .ok v ∧ k v = .ok s2 := by
  unfold readB at hok
  split at hok
  · exact ⟨_, by assumption, hok⟩
  · cases hok

theorem writeB_ok (s : CPUState) (addr : Int) (v : Nat) (k : CPUState → HOut) (s2 : CPUState)
    (hok : writeB s addr v k = .ok s2) :
    ∃ m, s.mem.write addr v = .ok m ∧ k { s with mem := m } = .ok s2 := by
  unfold writeB at hok
  split at hok
  · exact ⟨_, by assumption, hok⟩
  · cases hok

theorem unimpl_no_ok (s s2 : CPUState) (hok : instr_unimplemented s = .ok s2) : False := by
  unfold instr_unimplemented at hok
  split at hok <;> cases hok

theorem fpres_NOP (s s2 : CPUState) (hf : s.f &&& 15 = 0)
    (hok : instr_NOP s = .ok s2) : s2.f &&& 15 = 0 := by
  unfold instr_NOP at hok
  cases hok
  exact hf

theorem fpres_INC_BC (s s2 : CPUState) (hf : s.f &&& 15 = 0)
    (hok : instr_INC_BC s = .ok s2) : s2.f &&& 15 = 0 := by
  unfold instr_INC_BC at hok
  cases hok
  exact hf

theorem fpres_DEC_BC (s s2 : CPUState) (hf : s.f &&& 15 = 0)
    (hok : instr_DEC_BC s = .ok s2) : s2.f &&& 15 = 0 := by
  unfold instr_DEC_BC at hok
  cases hok
  exact hf

theorem fpres_STOP (s s2 : CPUState) (hf : s.f &&& 15 = 0)
    (hok : instr_STOP s = .ok s2) : s2.f &&& 15 = 0 := by
  unfold instr_STOP at hok
  cases hok
  exact hf

theorem fpres_INC_DE (s s2 : CPUState) (hf : s.f &&& 15 = 0)
    (hok : instr_INC_DE s = .ok s2) : s2.f &&& 15 = 0 := by
  unfold instr_INC_DE at hok
  cases hok
  exact hf

theorem fpres_DEC_DE (s s2 : CPUState) (hf : s.f &&& 15 = 0)
    (hok : instr_DEC_DE s = .ok s2) : s2.f &&& 15 = 0 := by
  unfold instr_DEC_DE at hok
  cases hok
  exact hf

theorem fpres_LD_B_A (s s2 : CPUState) (hf : s.f &&& 15 = 0)
    (hok : instr_LD_B_A s = .ok s2) : s2.f &&& 15 = 0 := by
  unfold instr_LD_B_A at hok
  cases hok
  exact hf

theorem fpres_HALT (s s2 : CPUState) (hf : s.f &&& 15 = 0)
    (hok : instr_HALT s = .ok s2) : s2.f &&& 15 = 0 := by
  unfold instr_HALT at hok
  cases hok
  exact hf

theorem fpres_LD_A_B (s s2 : CPUState) (hf : s.f &&& 15 = 0)
    (hok : instr_LD_A_B s = .ok s2) : s2.f &&& 15 = 0 := by
  unfold instr_LD_A_B at hok
  cases hok
  exact hf

theorem fpres_INC_B (s s2 : CPUState) (hf : s.f &&& 15 = 0)
    (hok : instr_INC_B s = .ok s2) : s2.f &&& 15 = 0 := by
  unfold instr_INC_B at hok
  cases hok
  exact setFlags_low _ _ _ _ _ hf

theorem fpres_DEC_B (s s2 : CPUState) (hf : s.f &&& 15 = 0)
    (hok : instr_DEC_B s = .ok s2) : s2.f &&& 15 = 0 := by
  unfold instr_DEC_B at hok
  cases hok
  exact setFlags_low _ _ _ _ _ hf

theorem fpres_RLCA (s s2 : CPUState) (hf : s.f &&& 15 = 0)
    (hok : instr_RLCA s = .ok s2) : s2.f &&& 15 = 0 := by
  unfold instr_RLCA at hok
  cases hok
  exact setFlags_low _ _ _ _ _ hf

theorem fpres_ADD_HL_BC (s s2 : CPUState) (hf : s.f &&& 15 = 0)
    (hok : instr_ADD_HL_BC s = .ok s2) : s2.f &&& 15 = 0 := by
  unfold instr_ADD_HL_BC at hok
  cases hok
  exact setFlags_low _ _ _ _ _ hf

theorem fpres_INC_C (s s2 : CPUState) (hf : s.f &&& 15 = 0)
    (hok : instr_INC_C s = .ok s2) : s2.f &&& 15 = 0 := by
  unfold instr_INC_C at hok
  cases hok
  exact setFlags_low _ _ _ _ _ hf

theorem fpres_DEC_C (s s2 : CPUState) (hf : s.f &&& 15 = 0)
    (hok : instr_DEC_C s = .ok s2) : s2.f &&& 15 = 0 := by
  unfold instr_DEC_C at hok
  cases hok
  exact setFlags_low _ _ _ _ _ hf

theorem fpres_RRCA (s s2 : CPUState) (hf : s.f &&& 15 = 0)
    (hok : instr_RRCA s = .ok s2) : s2.f &&& 15 = 0 := by
  unfold instr_RRCA at hok
  cases hok
  exact setFlags_low _ _ _ _ _ hf

theorem fpres_INC_D (s s2 : CPUState) (hf : s.f &&& 15 = 0)
    (hok : instr_INC_D s = .ok s2) : s2.f &&& 15 = 0 := by
  unfold instr_INC_D at hok
  cases hok
  exact setFlags_low _ _ _ _ _ hf

theorem fpres_DEC_D (s s2 : CPUState) (hf : s.f &&& 15 = 0)
    (hok : instr_DEC_D s = .ok s2) : s2.f &&& 15 = 0 := by
  unfold instr_DEC_D at hok
  cases hok
  exact setFlags_low _ _ _ _ _ hf

theorem fpres_RLA (s s2 : CPUState) (hf : s.f &&& 15 = 0)
    (hok : instr_RLA s = .ok s2) : s2.f &&& 15 = 0 := by
  unfold instr_RLA at hok
  cases hok
  exact setFlags_low _ _ _ _ _ hf

theorem fpres_ADD_HL_DE (s s2 : CPUState) (hf : s.f &&& 15 = 0)
    (hok : instr_ADD_HL_DE s = .ok s2) : s2.f &&& 15 = 0 := by
  unfold instr_ADD_HL_DE at hok
  cases hok
  exact setFlags_low _ _ _ _ _ hf

theorem fpres_INC_E (s s2 : CPUState) (hf : s.f &&& 15 = 0)
    (hok : instr_INC_E s = .ok s2) : s2.f &&& 15 = 0 := by
  unfold instr_INC_E at hok
  cases hok
  exact setFlags_low _ _ _ _ _ hf

theorem fpres_DEC_E (s s2 : CPUState) (hf : s.f &&& 15 = 0)
    (hok : instr_DEC_E s = .ok s2) : s2.f &&& 15 = 0 := by
  unfold instr_DEC_E at hok
  cases hok
  exact setFlags_low _ _ _ _ _ hf

theorem fpres_LD_B_d8 (s s2 : CPUState) (hf : s.f &&& 15 = 0)
    (hok : instr_LD_B_d8 s = .ok s2) : s2.f &&& 15 = 0 := by
  unfold instr_LD_B_d8 at hok
  obtain ⟨v, hr, hok⟩ := readB_ok _ _ _ _ hok
  cases hok
  exact hf

theorem fpres_LD_A_BC (s s2 : CPUState) (hf : s.f &&& 15 = 0)
    (hok : instr_LD_A_BC s = .ok s2) : s2.f &&& 15 = 0 := by
  unfold instr_LD_A_BC at hok
  obtain ⟨v, hr, hok⟩ := readB_ok _ _ _ _ hok
  cases hok
  exact hf

theorem fpres_LD_C_d8 (s s2 : CPUState) (hf : s.f &&& 15 = 0)
    (hok : instr_LD_C_d8 s = .ok s2) : s2.f &&& 15 = 0 := by
  unfold instr_LD_C_d8 at hok
  obtain ⟨v, hr, hok⟩ := readB_ok _ _ _ _ hok
  cases hok
  exact hf

theorem fpres_LD_D_d8 (s s2 : CPUState) (hf : s.f &&& 15 = 0)
    (hok : instr_LD_D_d8 s = .ok s2) : s2.f &&& 15 = 0 := by
  unfold instr_LD_D_d8 at hok
  obtain ⟨v, hr, hok⟩ := readB_ok _ _ _ _ hok
  cases hok
  exact hf

theorem fpres_LD_A_DE (s s2 : CPUState) (hf : s.f &&& 15 = 0)
    (hok : instr_LD_A_DE s = .ok s2) : s2.f &&& 15 = 0 := by
  unfold instr_LD_A_DE at hok
  obtain ⟨v, hr, hok⟩ := readB_ok _ _ _ _ hok
  cases hok
  exact hf

theorem fpres_LD_E_d8 (s s2 : CPUState) (hf : s.f &&& 15 = 0)
    (hok : instr_LD_E_d8 s = .ok s2) : s2.f &&& 15 = 0 := by
  unfold instr_LD_E_d8 at hok
  obtain ⟨v, hr, hok⟩ := readB_ok _ _ _ _ hok
  cases hok
  exact hf

theorem fpres_LD_A_d8 (s s2 : CPUState) (hf : s.f &&& 15 = 0)
    (hok : instr_LD_A_d8 s = .ok s2) : s2.f &&& 15 = 0 := by
  unfold instr_LD_A_d8 at hok
  obtain ⟨v, hr, hok⟩ := readB_ok _ _ _ _ hok
  cases hok
  exact hf

theorem fpres_JR_s8 (s s2 : CPUState) (hf : s.f &&& 15 = 0)
    (hok : instr_JR_s8 s = .ok s2) : s2.f &&& 15 = 0 := by
  unfold instr_JR_s8 at hok
  obtain ⟨v, hr, hok⟩ := readB_ok _ _ _ _ hok
  cases hok
  exact hf

theorem fpres_LD_BC_d16 (s s2 : CPUState) (hf : s.f &&& 15 = 0)
    (hok : instr_LD_BC_d16 s = .ok s2) : s2.f &&& 15 = 0 := by
  unfold instr_LD_BC_d16 at hok
  obtain ⟨v1, hr1, hok⟩ := readB_ok _ _ _ _ hok
  obtain ⟨v2, hr2, hok⟩ := readB_ok _ _ _ _ hok
  cases hok
  exact hf

theorem fpres_LD_DE_d16 (s s2 : CPUState) (hf : s.f &&& 15 = 0)
    (hok : instr_LD_DE_d16 s = .ok s2) : s2.f &&& 15 = 0 := by
  unfold instr_LD_DE_d16 at hok
  obtain ⟨v1, hr1, hok⟩ := readB_ok _ _ _ _ hok
  obtain ⟨v2, hr2, hok⟩ := readB_ok _ _ _ _ hok
  cases hok
  exact hf

theorem fpres_LD_HL_d16 (s s2 : CPUState) (hf : s.f &&& 15 = 0)
    (hok : instr_LD_HL_d16 s = .ok s2) : s2.f &&& 15 = 0 := by
  unfold instr_LD_HL_d16 at hok
  obtain ⟨v1, hr1, hok⟩ := readB_ok _ _ _ _ hok
  obtain ⟨v2, hr2, hok⟩ := readB_ok _ _ _ _ hok
  cases hok
  exact hf

theorem fpres_JP_d16 (s s2 : CPUState) (hf : s.f &&& 15 = 0)
    (hok : instr_JP_d16 s = .ok s2) : s2.f &&& 15 = 0 := by
  unfold instr_JP_d16 at hok
  obtain ⟨v1, hr1, hok⟩ := readB_ok _ _ _ _ hok
  obtain ⟨v2, hr2, hok⟩ := readB_ok _ _ _ _ hok
  cases hok
  exact hf

theorem fpres_LD_BC_A (s s2 : CPUState) (hf : s.f &&& 15 = 0)
    (hok : instr_LD_BC_A s = .ok s2) : s2.f &&& 15 = 0 := by
  unfold instr_LD_BC_A at hok
  obtain ⟨m1, hw1, hok⟩ := writeB_ok _ _ _ _ _ hok
  cases hok
  exact hf

theorem fpres_LD_DE_A (s s2 : CPUState) (hf : s.f &&& 15 = 0)
    (hok : instr_LD_DE_A s = .ok s2) : s2.f &&& 15 = 0 := by
  unfold instr_LD_DE_A at hok
  obtain ⟨m1, hw1, hok⟩ := writeB_ok _ _ _ _ _ hok
  cases hok
  exact hf

theorem fpres_LD_a16_SP (s s2 : CPUState) (hf : s.f &&& 15 = 0)
    (hok : instr_LD_a16_SP s = .ok s2) : s2.f &&& 15 = 0 := by
  unfold instr_LD_a16_SP at hok
  obtain ⟨v1, hr1, hok⟩ := readB_ok _ _ _ _ hok
  obtain ⟨v2, hr2, hok⟩ := readB_ok _ _ _ _ hok
  obtain ⟨m1, hw1, hok⟩ := writeB_ok _ _ _ _ _ hok
  obtain ⟨m2, hw2, hok⟩ := writeB_ok _ _ _ _ _ hok
  cases hok
  exact hf

theorem step_f_low (s s2 : CPUState) (n : Nat) (hf : s.f &&& 15 = 0)
    (hstep : CPU.step s = .ok s2 n) : s2.f &&& 15 = 0 := by
  unfold CPU.step at hstep
  split at hstep
  · cases hstep
    exact hf
  · split at hstep
    · cases hstep
    · rename_i opcode hread
      rcases htab : instructionsTable opcode with _ | instr
      · rw [htab] at hstep
        split at hstep
        · rename_i s2x heq
          exact ((unimpl_no_ok _ _ heq)).elim
        · cases hstep
      · rw [htab] at hstep
        split at hstep
        · rename_i s2x heq
          cases hstep
          unfold instructionsTable at htab
          split at htab
          · cases htab
            refine fpres_NOP _ _ ?_ heq
            exact hf
          · cases htab
            refine fpres_LD_BC_d16 _ _ ?_ heq
            exact hf
          · cases htab
            refine fpres_LD_BC_A _ _ ?_ heq
            exact hf
          · cases htab
            refine fpres_INC_BC _ _ ?_ heq
            exact hf
          · cases htab
            refine fpres_INC_B _ _ ?_ heq
            exact hf
          · cases htab
            refine fpres_DEC_B _ _ ?_ heq
            exact hf
          · cases htab
            refine fpres_LD_B_d8 _ _ ?_ heq
            exact hf
          · cases htab
            refine fpres_RLCA _ _ ?_ heq
            exact hf
          · cases htab
            refine fpres_LD_a16_SP _ _ ?_ heq
            exact hf
          · cases htab
            refine fpres_ADD_HL_BC _ _ ?_ heq
            exact hf
          · cases htab
            refine fpres_LD_A_BC _ _ ?_ heq
            exact hf
          · cases htab
            refine fpres_DEC_BC _ _ ?_ heq
            exact hf
          · cases htab
            refine fpres_INC_C _ _ ?_ heq
            exact hf
          · cases htab
            refine fpres_DEC_C _ _ ?_ heq
            exact hf
          · cases htab
            refine fpres_LD_C_d8 _ _ ?_ heq
            exact hf
          · cases htab
            refine fpres_RRCA _ _ ?_ heq
            exact hf
          · cases htab
            refine fpres_STOP _ _ ?_ heq
            exact hf
          · cases htab
            refine fpres_LD_DE_d16 _ _ ?_ heq
            exact hf
          · cases htab
            refine fpres_LD_DE_A _ _ ?_ heq
            exact hf
          · cases htab
            refine fpres_INC_DE _ _ ?_ heq
            exact hf
          · cases htab
            refine fpres_INC_D _ _ ?_ heq
            exact hf
          · cases htab
            refine fpres_DEC_D _ _ ?_ heq
            exact hf
          · cases htab
            refine fpres_LD_D_d8 _ _ ?_ heq
            exact hf
          · cases htab
            refine fpres_RLA _ _ ?_ heq
            exact hf
          · cases htab
            refine fpres_JR_s8 _ _ ?_ heq
            exact hf
          · cases htab
            refine fpres_ADD_HL_DE _ _ ?_ heq
            exact hf
          · cases htab
            refine fpres_LD_A_DE _ _ ?_ heq
            exact hf
          · cases htab
            refine fpres_DEC_DE _ _ ?_ heq
            exact hf
          · cases htab
            refine fpres_INC_E _ _ ?_ heq
            exact hf
          · cases htab
            refine fpres_DEC_E _ _ ?_ heq
            exact hf
          · cases htab
            refine fpres_LD_E_d8 _ _ ?_ heq
            exact hf
          · cases htab
            refine fpres_LD_HL_d16 _ _ ?_ heq
            exact hf
          · cases htab
            refine fpres_LD_A_d8 _ _ ?_ heq
            exact hf
          · cases htab
            refine fpres_LD_B_A _ _ ?_ heq
            exact hf
          · cases htab
            refine fpres_HALT _ _ ?_ heq
            exact hf
          · cases htab
            refine fpres_LD_A_B _ _ ?_ heq
            exact hf
          · cases htab
            refine fpres_JP_d16 _ _ ?_ heq
            exact hf
          · cases htab
        · cases hstep
theorem Memory.write_wram (m : Memory) (a : Int) (v : Nat) (h1 : 0xC000 ≤ a) (h2 : a ≤ 0xDFFF) :
    m.write a v = .ok { m with wram := setByte m.wram (a - 0xC000).toNat (v % 256) } := by
  unfold Memory.write
  rcases le_or_lt a 0xCFFF with hc | hc
  · rw [if_neg (by omega), if_neg (by omega), if_neg (by omega), if_pos (by omega)]
  · rw [if_neg (by omega), if_neg (by omega), if_neg (by omega), if_neg (by omega),
      if_pos (by omega)]
    have hidx : (0x1000 + (a - 0xD000)).toNat = (a - 0xC000).toNat := by omega
    rw [hidx]

theorem Memory.read_wram (m : Memory) (a : Int) (h1 : 0xC000 ≤ a) (h2 : a ≤ 0xDFFF) :
    m.read a = .ok (m.wram (a - 0xC000).toNat) := by
  unfold Memory.read
  rcases le_or_lt a 0xCFFF with hc | hc
  · rw [if_neg (by omega), if_neg (by omega), if_neg (by omega), if_pos (by omega)]
  · rw [if_neg (by omega), if_neg (by omega), if_neg (by omega), if_neg (by omega),
      if_pos (by omega)]
    have hidx : (0x1000 + (a - 0xD000)).toNat = (a - 0xC000).toNat := by omega
    rw [hidx]

theorem Memory.write_echo (m : Memory) (a : Int) (v : Nat) (h1 : 0xE000 ≤ a) (h2 : a ≤ 0xFDFF) :
    m.write a v = .ok { m with wram := setByte m.wram (a - 0xE000).toNat (v % 256) } := by
  unfold Memory.write
  rw [if_neg (by omega), if_neg (by omega), if_neg (by omega), if_neg (by omega),
    if_neg (by omega), if_pos (by omega)]
  rcases le_or_lt (a - 0x2000) 0xCFFF with hc | hc
  · rw [if_pos (by omega)]
    have hidx : (a - 0x2000 - 0xC000).toNat = (a - 0xE000).toNat := by omega
    rw [hidx]
  · rw [if_neg (by omega)]
    have hidx : (0x1000 + (a - 0x2000 - 0xD000)).toNat = (a - 0xE000).toNat := by omega
    rw [hidx]

theorem Memory.read_echo (m : Memory) (a : Int) (h1 : 0xE000 ≤ a) (h2 : a ≤ 0xFDFF) :
    m.read a = .ok (m.wram (a - 0xE000).toNat) := by
  unfold Memory.read
  rw [if_neg (by omega), if_neg (by omega), if_neg (by omega), if_neg (by omega),
    if_neg (by omega), if_pos (by omega)]
  rcases le_or_lt (a - 0x2000) 0xCFFF with hc | hc
  · rw [if_pos (by omega)]
    have hidx : (a - 0x2000 - 0xC000).toNat = (a - 0xE000).toNat := by omega
    rw [hidx]
  · rw [if_neg (by omega)]
    have hidx : (0x1000 + (a - 0x2000 - 0xD000)).toNat = (a - 0xE000).toNat := by omega
    rw [hidx]
/-- C5: Echo RAM round-trip. For every address in 0xE000..0xFDFF and byte v,
writing at the address and reading at address - 0x2000 returns v, and
writing at address - 0x2000 and reading at the address returns v. -/
theorem echo_ram_roundtrip (m : Memory) (addr : Int) (v : Nat)
    (h1 : 0xE000 ≤ addr) (h2 : addr ≤ 0xFDFF) (hv : v < 256) :
    (∃ m1, m.write addr v = .ok m1 ∧ m1.read (addr - 0x2000) = .ok v) ∧
    (∃ m2, m.write (addr - 0x2000) v = .ok m2 ∧ m2.read addr = .ok v) := by
  constructor
  · refine ⟨_, Memory.write_echo m addr v h1 h2, ?_⟩
    rw [Memory.read_wram _ _ (by omega) (by omega)]
    have hidx : (addr - 0x2000 - 0xC000).toNat = (addr - 0xE000).toNat := by omega
    simp only [hidx, setByte]
    rw [if_pos trivial, Nat.mod_eq_of_lt hv]
  · refine ⟨_, Memory.write_wram m (addr - 0x2000) v (by omega) (by omega), ?_⟩
    rw [Memory.read_echo _ _ h1 h2]
    have hidx : (addr - 0xE000).toNat = (addr - 0x2000 - 0xC000).toNat := by omega
    simp only [hidx, setByte]
    rw [if_pos trivial, Nat.mod_eq_of_lt hv]

/-- Witness for C5 at the concrete input of the test suite: address 0xE000,
value 0x84 (write 0x84 at 0xE000, read it back at 0xC000 and conversely). -/
theorem echo_ram_roundtrip_witness :
    (∃ m1, (memWith []).write 0xE000 0x84 = .ok m1 ∧ m1.read (0xE000 - 0x2000) = .ok 0x84) ∧
    (∃ m2, (memWith []).write (0xE000 - 0x2000) 0x84 = .ok m2 ∧ m2.read 0xE000 = .ok 0x84) :=
  echo_ram_roundtrip (memWith []) 0xE000 0x84 (by omega) (by omega) (by omega)

/-- C1: writing to 0xFFFF. The read dispatch maps 0xFFFF to the IE
register, but the write dispatch has no branch for 0xFFFF, so
Memory.write(0xFFFF, v) raises InvalidAddress instead of storing v in IE:
evaluated here on a fresh bus with v = 0x42, the write fails while the read
of 0xFFFF (returning the still-zero IE register) succeeds. -/
theorem write_ie_invalid_address :
    (memWith []).write 0xFFFF 0x42 = .error (.invalidAddress 0xFFFF) ∧
    (memWith []).read 0xFFFF = .ok 0x00 :=
  ⟨rfl, rfl⟩

/-- C2: opcode 0x16 (LD D,d8) executed at 0x0100 with immediate 0x12 loads
D but leaves PC at 0x0101, not 0x0102: the handler does not advance PC past
the consumed immediate, unlike every other LD r,d8. -/
theorem ld_d_d8_no_pc_advance :
    (CPU.step (cpuWith [0x16, 0x12])).errOf = none ∧
    ((CPU.step (cpuWith [0x16, 0x12])).stateOf).d = 0x12 ∧
    ((CPU.step (cpuWith [0x16, 0x12])).stateOf).pc = 0x0101 ∧
    (CPU.step (cpuWith [0x16, 0x12])).cyclesOf = some 2 :=
  ⟨rfl, rfl, rfl, rfl⟩

/-- C3: opcode 0x04 (INC B) does not clear the N flag. Starting from
F = 0x40 (N set) and B = 0, INC B yields B = 1 and F still 0x40: the
handler passes no subtract argument to the flag setter, so N is preserved
rather than set to 0 as the claim requires for every 8-bit INC. -/
theorem inc_b_preserves_n_flag :
    ((CPU.step { cpuWith [0x04] with f := 0x40 }).stateOf).f = 0x40 ∧
    ((CPU.step { cpuWith [0x04] with f := 0x40 }).stateOf).b = 0x01 ∧
    (CPU.step { cpuWith [0x04] with f := 0x40 }).errOf = none :=
  ⟨rfl, rfl, rfl⟩

/-- C8: when the HALT flag is set, step returns 0 cycles and the entire
state (registers, flags, PC, SP, HALT flag and memory) is returned
unchanged; the result does not depend on the memory contents at PC at all,
so no fetch is performed. -/
theorem step_halted (s : CPUState) (h : s.halted = true) : CPU.step s = .ok s 0 := by
  unfold CPU.step
  rw [if_pos h]

/-- Witness for C8 on a concrete halted CPU. -/
theorem step_halted_witness :
    CPU.step { cpuWith [] with halted := true } = .ok { cpuWith [] with halted := true } 0 :=
  step_halted _ rfl

theorem bytesGet_of_nonneg (b : List Nat) (i : Int) (h0 : 0 ≤ i) (h1 : i < (b.length : Int)) :
    bytesGet b i = .ok (b.getD i.toNat 0) := by
  have hp : pyIndex b i = i := by
    unfold pyIndex
    rw [if_neg (by omega)]
  unfold bytesGet
  rw [hp, if_pos ⟨h0, h1⟩]

theorem mbc1_bank_range (rom : List Nat) (bank : Nat) (ws : List (Int × Nat))
    (hb1 : 1 ≤ bank) (hb2 : bank ≤ 31) :
    1 ≤ (Mapper.writeList (.mbc1 rom bank) ws).bank ∧
      (Mapper.writeList (.mbc1 rom bank) ws).bank ≤ 31 := by
  induction ws generalizing bank with
  | nil => exact ⟨hb1, hb2⟩
  | cons w ws ih =>
    have hw : Mapper.writeList (.mbc1 rom bank) (w :: ws) =
        Mapper.writeList (Mapper.write (.mbc1 rom bank) w.1 w.2) ws := rfl
    rw [hw]
    simp only [Mapper.write]
    split
    · split
      · exact ih 1 (by omega) (by omega)
      · rename_i hnz
        exact ih _ (Nat.pos_of_ne_zero hnz) Nat.and_le_right
    · exact ih bank hb1 hb2

/-- C6: the MBC1 mapper. A write in 0x2000..0x3FFF selects bank
(value & 0x1F), with 0 replaced by 1; writes at the other ROM addresses in
0x0000..0x7FFF leave the mapper unchanged; a read below 0x4000 returns
ROM[addr]; a read at or above 0x4000 returns
ROM[(addr - 0x4000) + bank * 0x4000]; and starting from any bank in 1..31
(in particular the initial bank 1), the bank stays in 1..31 after any
sequence of writes. -/
theorem mbc1_semantics (rom : List Nat) (bank : Nat) (addr : Int) (v : Nat)
    (ws : List (Int × Nat)) :
    (0x2000 ≤ addr → addr ≤ 0x3FFF →
      Mapper.write (.mbc1 rom bank) addr v =
        .mbc1 rom (if v &&& 0x1F = 0 then 0x01 else v &&& 0x1F)) ∧
    (0x0000 ≤ addr → addr ≤ 0x7FFF → ¬(0x2000 ≤ addr ∧ addr ≤ 0x3FFF) →
      Mapper.write (.mbc1 rom bank) addr v = .mbc1 rom bank) ∧
    (0 ≤ addr → addr < 0x4000 → addr < (rom.length : Int) →
      Mapper.read (.mbc1 rom bank) addr = .ok (rom.getD addr.toNat 0)) ∧
    (0x4000 ≤ addr → addr - 0x4000 + bank * 0x4000 < (rom.length : Int) →
      Mapper.read (.mbc1 rom bank) addr =
        .ok (rom.getD (addr - 0x4000 + bank * 0x4000).toNat 0)) ∧
    (1 ≤ bank → bank ≤ 31 →
      1 ≤ (Mapper.writeList (.mbc1 rom bank) ws).bank ∧
        (Mapper.writeList (.mbc1 rom bank) ws).bank ≤ 31) := by
  refine ⟨?_, ?_, ?_, ?_, ?_⟩
  · intro h1 h2
    simp only [Mapper.write]
    rw [if_pos (And.intro h1 h2)]
  · intro h1 h2 h3
    simp only [Mapper.write]
    rw [if_neg h3]
  · intro h1 h2 h3
    simp only [Mapper.read]
    rw [if_pos h2]
    exact bytesGet_of_nonneg rom addr h1 h3
  · intro h1 h2
    simp only [Mapper.read]
    rw [if_neg (by omega)]
    exact bytesGet_of_nonneg rom _ (by omega) h2
  · exact mbc1_bank_range rom bank ws

/-- Witness for C6 on a concrete MBC1 mapper over a 0x4001-byte ROM image:
writing 0x00 at 0x2000 selects bank 1, a write at 0x4000 is ignored, reads
hit ROM[addr] below 0x4000 and ROM[addr - 0x4000 + bank * 0x4000] at
0x4000, and a concrete write sequence keeps the bank within 1..31. -/
theorem mbc1_semantics_witness :
    (Mapper.write (.mbc1 (List.replicate 0x4001 7) 1) 0x2000 0x00 =
      .mbc1 (List.replicate 0x4001 7) 0x01) ∧
    (Mapper.write (.mbc1 (List.replicate 0x4001 7) 1) 0x4000 0x05 =
      .mbc1 (List.replicate 0x4001 7) 1) ∧
    (Mapper.read (.mbc1 (List.replicate 0x4001 7) 1) 0x0100 =
      .ok ((List.replicate 0x4001 7).getD (0x0100 : Int).toNat 0)) ∧
    (Mapper.read (.mbc1 (List.replicate 0x4001 7) 1) 0x4000 =
      .ok ((List.replicate 0x4001 7).getD ((0x4000 : Int) - 0x4000 + 1 * 0x4000).toNat 0)) ∧
    (1 ≤ (Mapper.writeList (.mbc1 (List.replicate 0x4001 7) 1) [(0x2000, 0x20)]).bank ∧
      (Mapper.writeList (.mbc1 (List.replicate 0x4001 7) 1) [(0x2000, 0x20)]).bank ≤ 31) := by
  have hlen : ((List.replicate 0x4001 7).length : Int) = 0x4001 := by
    rw [List.length_replicate]
    rfl
  refine ⟨?_, ?_, ?_, ?_, ?_⟩
  · have h := (mbc1_semantics (List.replicate 0x4001 7) 1 0x2000 0x00 []).1
      (by omega) (by omega)
    have hred : (if (0x00 &&& 0x1F : Nat) = 0 then (0x01 : Nat) else 0x00 &&& 0x1F) = 0x01 := rfl
    rw [hred] at h
    exact h
  · exact (mbc1_semantics (List.replicate 0x4001 7) 1 0x4000 0x05 []).2.1
      (by omega) (by omega) (by omega)
  · exact (mbc1_semantics (List.replicate 0x4001 7) 1 0x0100 0 []).2.2.1
      (by omega) (by omega) (by rw [hlen]; omega)
  · exact (mbc1_semantics (List.replicate 0x4001 7) 1 0x4000 0 []).2.2.2.1
      (by omega) (by rw [hlen]; omega)
  · exact (mbc1_semantics (List.replicate 0x4001 7) 1 0 0 [(0x2000, 0x20)]).2.2.2.2
      (by omega) (by omega)

theorem pc_bump (n : Nat) (h : n + 1 < 65536) : (((n : Int) + 1) % 65536).toNat = n + 1 := by
  omega

/-- C4 amended: whenever step fetches an opcode byte with no entry in the
dispatch table (at a fetch PC of at most 0xFFFE), step fails with an
UnimplementedOpcode error carrying the fetched opcode byte; the PC is not
included in the error. PC is left advanced by one past the fetch. -/
theorem step_unimplemented (s : CPUState) (op : Nat)
    (hh : s.halted = false) (hpc : s.pc ≤ 0xFFFE)
    (hread : s.mem.read (s.pc : Int) = .ok op)
    (htab : instructionsTable op = none) :
    CPU.step s = .err (.unimplementedOpcode op) (s.setPC ((s.pc : Int) + 1)) := by
  unfold CPU.step
  rw [if_neg (by simp [hh]), hread]
  simp only [htab, Option.getD_none]
  have hsub : ((((s.setPC ((s.pc : Int) + 1)).pc : Nat) : Int) - 1) = (s.pc : Int) := by
    simp only [CPUState.setPC]
    rw [pc_bump s.pc (by omega)]
    push_cast
    ring
  simp only [defaultInstruction, instr_unimplemented]
  rw [hsub]
  simp only [CPUState.setPC]
  rw [hread]

/-- Counterexample for C4: a ROM holding the unimplemented opcode 0xFF both
at 0x0100 and at 0x0200. -/
def romTwoBad : List Nat :=
  List.replicate 0x100 0 ++ 0xFF :: (List.replicate 0xFF 0 ++ [0xFF])

/-- CPU over romTwoBad at the power-on PC 0x0100. -/
def cpuBadA : CPUState :=
  CPU.new { mapper := .noMBC romTwoBad, vram := fun _ => 0, eram := fun _ => 0,
            wram := fun _ => 0, oam := fun _ => 0, ioRegs := fun _ => 0,
            hram := fun _ => 0, ie := 0x00 }

/-- The same CPU with PC moved to 0x0200. -/
def cpuBadB : CPUState := { cpuBadA with pc := 0x0200 }

/-- C4 counterexample: fetching the unimplemented opcode 0xFF at PC 0x0100
and at PC 0x0200 produces the very same error value, so the error cannot
carry the PC at which the opcode was fetched; it carries only the opcode
byte. -/
theorem unimplemented_error_has_no_pc :
    (CPU.step cpuBadA).errOf = some (.unimplementedOpcode 0xFF) ∧
    (CPU.step cpuBadB).errOf = some (.unimplementedOpcode 0xFF) ∧
    (CPU.step cpuBadA).errOf = (CPU.step cpuBadB).errOf ∧
    cpuBadA.pc ≠ cpuBadB.pc :=
  ⟨rfl, rfl, rfl, by decide⟩

/-- Witness for C4 amended: the unimplemented opcode 0xFF fetched at
0x0100 yields the UnimplementedOpcode error carrying 0xFF. -/
theorem step_unimplemented_witness :
    CPU.step (cpuWith [0xFF]) =
      .err (.unimplementedOpcode 0xFF)
        ((cpuWith [0xFF]).setPC (((cpuWith [0xFF]).pc : Int) + 1)) :=
  step_unimplemented (cpuWith [0xFF]) 0xFF rfl (by decide) rfl rfl

theorem instr_JR_s8_pc (s : CPUState) (b : Nat)
    (h : s.mem.read (s.pc : Int) = .ok b) :
    ∃ s2, instr_JR_s8 s = .ok s2 ∧
      (s2.pc : Int) = (((s.pc : Int) + 1 + (if 0x80 ≤ b then (b : Int) - 0x100 else (b : Int)))
        % 65536) ∧
      s2.mem = s.mem := by
  unfold instr_JR_s8 readB
  rw [h]
  refine ⟨_, rfl, ?_, rfl⟩
  simp only [CPUState.setPC]
  by_cases h8 : 0x80 ≤ b
  · simp only [if_pos h8]
    omega
  · simp only [if_neg h8]
    omega

/-- C7: JR round-trip. Whenever step fetches opcode 0x18 at PC p and the
immediate byte b follows at (p + 1) mod 2^16, the PC afterwards equals
(p + 2 + s) mod 2^16 where s is the two's-complement reading of b, and the
instruction reports 3 cycles. -/
theorem jr_round_trip (s : CPUState) (b : Nat)
    (hh : s.halted = false) (hpc : s.pc < 65536)
    (h0 : s.mem.read (s.pc : Int) = .ok 0x18)
    (h1 : s.mem.read (((s.pc + 1) % 65536 : Nat) : Int) = .ok b)
    (_hb : b < 256) :
    ∃ s2, CPU.step s = .ok s2 3 ∧
      (s2.pc : Int) = (((s.pc : Int) + 2 + (if 0x80 ≤ b then (b : Int) - 0x100 else (b : Int)))
        % 65536) := by
  have htab : instructionsTable 0x18 = some ⟨"JR s8", 0x18, 2, 3, instr_JR_s8⟩ := rfl
  have hread2 : (s.setPC ((s.pc : Int) + 1)).mem.read
      (((s.setPC ((s.pc : Int) + 1)).pc : Nat) : Int) = .ok b := by
    have haddr : (((s.setPC ((s.pc : Int) + 1)).pc : Nat) : Int) =
        (((s.pc + 1) % 65536 : Nat) : Int) := by
      simp only [CPUState.setPC]
      omega
    rw [haddr]
    exact h1
  obtain ⟨s2, heq, hpc2, hmem⟩ := instr_JR_s8_pc (s.setPC ((s.pc : Int) + 1)) b hread2
  unfold CPU.step
  rw [if_neg (by simp [hh]), h0]
  simp only [htab, Option.getD_some]
  rw [heq]
  refine ⟨s2, rfl, ?_⟩
  simp only [CPUState.setPC] at hpc2
  by_cases h8 : 0x80 ≤ b
  · simp only [if_pos h8] at hpc2 ⊢
    omega
  · simp only [if_neg h8] at hpc2 ⊢
    omega

/-- Witness for C7: the program [18 FE] at 0x0100 self-loops, PC returns to
0x0100 after the step. -/
theorem jr_round_trip_witness :
    ∃ s2, CPU.step (cpuWith [0x18, 0xFE]) = .ok s2 3 ∧ (s2.pc : Int) = 0x0100 := by
  obtain ⟨s2, hstep, hpc⟩ :=
    jr_round_trip (cpuWith [0x18, 0xFE]) 0xFE rfl (by decide) rfl rfl (by decide)
  refine ⟨s2, hstep, ?_⟩
  rw [hpc]
  rfl

theorem readB_step (s : CPUState) (addr : Int) (k : Nat → HOut) (v : Nat)
    (h : s.mem.read addr = .ok v) : readB s addr k = k v := by
  unfold readB
  rw [h]

theorem writeB_step (s : CPUState) (addr : Int) (v : Nat) (k : CPUState → HOut) (m : Memory)
    (h : s.mem.write addr v = .ok m) : writeB s addr v k = k { s with mem := m } := by
  unfold writeB
  rw [h]

theorem writeB_err (s : CPUState) (addr : Int) (v : Nat) (k : CPUState → HOut) (e : Err)
    (h : s.mem.write addr v = .error e) : writeB s addr v k = .err e s := by
  unfold writeB
  rw [h]

theorem instr_LD_a16_SP_fe (s : CPUState)
    (h1 : s.mem.read (s.pc : Int) = .ok 0xFE)
    (h2 : s.mem.read ((s.pc : Int) + 1) = .ok 0xFF) :
    instr_LD_a16_SP s = .err (.invalidAddress 0xFFFF)
      { s with mem := { s.mem with hram := setByte s.mem.hram 0x7E ((s.sp &&& 0xFF) % 256) } } := by
  unfold instr_LD_a16_SP
  rw [readB_step _ _ _ _ h1]
  rw [readB_step _ _ _ _ h2]
  rw [show (0xFE ||| ((0xFF : Nat) <<< 8) : Nat) = 0xFFFE from rfl]
  rw [writeB_step s (((0xFFFE : Nat) : Int)) (s.sp &&& 0x00FF) _
    { s.mem with hram := setByte s.mem.hram 0x7E ((s.sp &&& 0xFF) % 256) }
    (show Memory.write s.mem (((0xFFFE : Nat) : Int)) (s.sp &&& 0x00FF) =
      .ok { s.mem with hram := setByte s.mem.hram 0x7E ((s.sp &&& 0xFF) % 256) } from rfl)]
  rw [writeB_err { s with mem := { s.mem with hram := setByte s.mem.hram 0x7E ((s.sp &&& 0xFF) % 256) } }
    ((((0xFFFE : Nat) : Int)) + 1)
    (({ s with mem := { s.mem with hram := setByte s.mem.hram 0x7E ((s.sp &&& 0xFF) % 256) } } : CPUState).sp >>> 8 &&& 0x00FF)
    _ (.invalidAddress 0xFFFF)
    (show _ = _ from rfl)]

theorem instr_LD_a16_SP_ff (s : CPUState)
    (h1 : s.mem.read (s.pc : Int) = .ok 0xFF)
    (h2 : s.mem.read ((s.pc : Int) + 1) = .ok 0xFF) :
    instr_LD_a16_SP s = .err (.invalidAddress 0xFFFF) s := by
  unfold instr_LD_a16_SP
  rw [readB_step _ _ _ _ h1]
  rw [readB_step _ _ _ _ h2]
  rw [show (0xFF ||| ((0xFF : Nat) <<< 8) : Nat) = 0xFFFF from rfl]
  rw [writeB_err s (((0xFFFF : Nat) : Int)) (s.sp &&& 0x00FF) _ (.invalidAddress 0xFFFF)
    (show Memory.write s.mem (((0xFFFF : Nat) : Int)) (s.sp &&& 0x00FF) =
      .error (.invalidAddress 0xFFFF) from rfl)]

/-- C10: LD (a16),SP (opcode 0x08) with immediate 0xFFFE raises
InvalidAddress at 0xFFFF after the low byte of SP has already been written
to HRAM (read-back at 0xFFFE returns sp mod 256, PC is left at p + 1), and
with immediate 0xFFFF the very first store already raises InvalidAddress,
leaving memory untouched. The instruction is not atomic on error. -/
theorem ld_a16_sp_invalid (s : CPUState)
    (hh : s.halted = false) (hpc : s.pc ≤ 0xFFFC)
    (h0 : s.mem.read (s.pc : Int) = .ok 0x08) :
    (s.mem.read ((s.pc : Int) + 1) = .ok 0xFE → s.mem.read ((s.pc : Int) + 2) = .ok 0xFF →
      ∃ s2, CPU.step s = .err (.invalidAddress 0xFFFF) s2 ∧
        s2.mem.read 0xFFFE = .ok (s.sp % 256) ∧ s2.pc = s.pc + 1) ∧
    (s.mem.read ((s.pc : Int) + 1) = .ok 0xFF → s.mem.read ((s.pc : Int) + 2) = .ok 0xFF →
      CPU.step s = .err (.invalidAddress 0xFFFF) (s.setPC ((s.pc : Int) + 1))) := by
  have htab : instructionsTable 0x08 = some ⟨"LD (a16), SP", 0x08, 3, 5, instr_LD_a16_SP⟩ := rfl
  have ha1 : (((s.setPC ((s.pc : Int) + 1)).pc : Nat) : Int) = (s.pc : Int) + 1 := by
    simp only [CPUState.setPC]
    omega
  have hsp : (s.setPC ((s.pc : Int) + 1)).sp = s.sp := rfl
  constructor
  · intro h1 h2
    have hfe := instr_LD_a16_SP_fe (s.setPC ((s.pc : Int) + 1))
      (by rw [ha1]; exact h1)
      (by rw [ha1]; rw [show (s.pc : Int) + 1 + 1 = (s.pc : Int) + 2 by ring]; exact h2)
    unfold CPU.step
    rw [if_neg (by simp [hh]), h0]
    simp only [htab, Option.getD_some]
    rw [hfe]
    refine ⟨_, rfl, ?_, ?_⟩
    · have hrd : ∀ (mm : Memory), mm.read 0xFFFE = .ok (mm.hram 0x7E) := fun mm => rfl
      rw [hrd]
      simp only [setByte, CPUState.setPC]
      rw [if_pos trivial]
      have hand : s.sp &&& 0xFF = s.sp % 256 := by
        simpa using Nat.and_pow_two_sub_one_eq_mod s.sp 8
      rw [hand]
      exact congrArg Except.ok (by omega)
    · simp only [CPUState.setPC]
      omega
  · intro h1 h2
    have hff := instr_LD_a16_SP_ff (s.setPC ((s.pc : Int) + 1))
      (by rw [ha1]; exact h1)
      (by rw [ha1]; rw [show (s.pc : Int) + 1 + 1 = (s.pc : Int) + 2 by ring]; exact h2)
    unfold CPU.step
    rw [if_neg (by simp [hh]), h0]
    simp only [htab, Option.getD_some]
    rw [hff]

/-- Witness for C10: program [08 FE FF] at 0x0100 with the power-on
SP = 0xFFFE; the step fails with InvalidAddress 0xFFFF, HRAM holds the low
byte of SP at 0xFFFE, and PC stops at 0x0101. -/
theorem ld_a16_sp_invalid_witness :
    ∃ s2, CPU.step (cpuWith [0x08, 0xFE, 0xFF]) = .err (.invalidAddress 0xFFFF) s2 ∧
      s2.mem.read 0xFFFE = .ok ((cpuWith [0x08, 0xFE, 0xFF]).sp % 256) ∧
      s2.pc = (cpuWith [0x08, 0xFE, 0xFF]).pc + 1 :=
  (ld_a16_sp_invalid (cpuWith [0x08, 0xFE, 0xFF]) rfl (by decide) rfl).1 rfl rfl

/-- C9: the low nibble of F is zero at power-on; the direct F setter and
the AF pair setter mask the stored value so its low nibble is zero; and the
low nibble of F being zero is preserved by every executed instruction
(flag setting through _set_flags only ever touches bits 4..7), so every
read of F returns a value whose low nibble is zero. -/
theorem f_low_nibble_invariant (m : Memory) (s s2 : CPUState) (n : Nat) (v : Int) :
    (CPU.new m).f = 0 ∧
    (s.setF v).f &&& 0x0F = 0 ∧
    (s.setAF v).f &&& 0x0F = 0 ∧
    (s.f &&& 0x0F = 0 → CPU.step s = .ok s2 n → s2.f &&& 0x0F = 0) := by
  refine ⟨rfl, ?_, ?_, fun hf hstep => step_f_low s s2 n hf hstep⟩
  · show ((v % 256).toNat &&& 0xF0) &&& 0x0F = 0
    rw [Nat.and_assoc]
    exact Nat.and_zero _
  · show (((((v % 65536).toNat &&& 0xF0 : Nat) : Int) % 256).toNat &&& 0xF0) &&& 0x0F = 0
    rw [Nat.and_assoc]
    exact Nat.and_zero _

/-- Witness for C9: after executing RLCA (which rewrites all four flags)
from the power-on state, the low nibble of F is zero. -/
theorem f_low_nibble_invariant_witness :
    ((CPU.step (cpuWith [0x07])).stateOf).f &&& 0x0F = 0 := by
  have hstep : CPU.step (cpuWith [0x07]) = .ok ((CPU.step (cpuWith [0x07])).stateOf) 1 := rfl
  exact (f_low_nibble_invariant (memWith []) (cpuWith [0x07])
    ((CPU.step (cpuWith [0x07])).stateOf) 1 0).2.2.2 rfl hstep
